import Mathlib

/-!
Verification of the Flintrock CLI core (`flintrock/flintrock.py`).

This file shallowly embeds the pure logic of `flintrock.py` — option-name
conversion, option validation (`option_requires`, `mutually_exclusive`),
the lifecycle commands (`launch`, `destroy`, `describe`, `login`, `start`,
`stop`, `run_command`, `copy_file`), the configuration loader (`cli`,
`normalize_keys`, `config_to_click`) and the exit-code mapping (`main`) —
and proves properties of the embedding.

Effects (SSH sessions, the EC2 provider, the terminal) are represented by
an explicit event trace: each command returns an `Except` outcome together
with the ordered list of externally visible actions it performed.  The
`ec2` and `services` modules of the repository are not part of the source
under verification; where their behaviour matters it is modelled from the
specification and marked as such in the corresponding doc comment.
-/

set_option linter.unusedVariables false
set_option linter.unusedTactic false

namespace Flintrock

/-! ## Python string primitives -/

/-- Scanning core of Python's `str.replace(old, new, count)` for a non-empty
`old`, working over character lists.  The `skip` argument counts characters
of a just-matched occurrence of `old` that still have to be consumed without
being re-emitted; `count = none` means "replace all occurrences" (Python's
default `count = -1`), `count = some k` means "replace at most `k`
occurrences", with the remainder of the string returned unchanged once the
budget hits zero. -/
def replaceGo (old new : List Char) : List Char → Nat → Option Nat → List Char
  | [], _, _ => []
  | _ :: rest, skip+1, count => replaceGo old new rest skip count
  | c :: rest, 0, count =>
    if count = some 0 then c :: rest
    else if old.isPrefixOf (c :: rest) then
      new ++ replaceGo old new rest (old.length - 1) (count.map (· - 1))
    else
      c :: replaceGo old new rest 0 count

/-- Python `s.replace(old, new)` (when `count = none`) and
`s.replace(old, new, k)` (when `count = some k`), for non-empty `old`:
non-overlapping occurrences are replaced left to right. -/
def pyReplace (s old new : String) (count : Option Nat) : String :=
  ⟨replaceGo old.data new.data s.data 0 count⟩

/-- Embedding of `option_name_to_variable_name` (flintrock.py:43-48):
`option.replace('--', '', 1).replace('-', '_')`. -/
def option_name_to_variable_name (option : String) : String :=
  pyReplace (pyReplace option "--" "" (some 1)) "-" "_" none

/-- Embedding of `variable_name_to_option_name` (flintrock.py:51-56):
`'--' + variable.replace('_', '-')`. -/
def variable_name_to_option_name (var : String) : String :=
  "--" ++ pyReplace var "_" "-" none

/-- Decides whether `sub` occurs as a contiguous substring of `s`
(character-list version). -/
def subOccursIn : List Char → List Char → Bool
  | _, [] => true
  | [], _ :: _ => false
  | c :: rest, sub => sub.isPrefixOf (c :: rest) || subOccursIn rest sub

/-- Decides whether two adjacent hyphens occur in a character list. -/
def hasDoubleDash : List Char → Bool
  | '-' :: '-' :: _ => true
  | _ :: rest => hasDoubleDash rest
  | [] => false

/-! ## Python values and scopes

`option_requires` and `mutually_exclusive` receive `locals()` of the calling
command; we model such a scope as an association list from variable names to
Python values.  Only the value shapes that actually occur in those scopes in
`flintrock.py` are represented. -/

/-- Python value stored in a command's `locals()` scope.  `ec2_spot_price`
is a `float` in the source; since no arithmetic is ever performed on it
(it is only forwarded and tested for being `None`), it is modelled with an
integer payload.  `obj` stands for opaque Python objects that sit in scope
but are never consulted by the validation helpers (the Click context, the
`services` list). -/
inductive Value where
  | none
  | str (s : String)
  | bool (b : Bool)
  | int (n : Int)
  | strList (l : List String)
  | obj (tag : String)
deriving DecidableEq

/-- Python truthiness of a scope value.  Opaque objects are truthy, which
matches the objects that actually occur in the modelled scopes. -/
def Value.truthy : Value → Bool
  | .none => false
  | .str s => s ≠ ""
  | .bool b => b
  | .int n => n ≠ 0
  | .strList l => !l.isEmpty
  | .obj _ => true

/-- Python `str(value)`, as used by `str.format` in error messages. -/
def Value.pyStr : Value → String
  | .none => "None"
  | .str s => s
  | .bool b => if b then "True" else "False"
  | .int n => toString n
  | .strList l => String.intercalate ", " l
  | .obj tag => tag

/-- Lift an optional string (a Click option that may be unset) to a scope
value: Python `None` or the string itself. -/
def optStr : Option String → Value
  | Option.none => Value.none
  | Option.some s => Value.str s

/-- A command's `locals()`: an association list from variable names to
values.  In `flintrock.py` all scopes have pairwise distinct keys. -/
abbrev Scope := List (String × Value)

/-- Python `scope[name]` returning `none` on a missing key (the callers
turn this into a `KeyError`). -/
def Scope.find? (scope : Scope) (k : String) : Option Value :=
  (List.find? (fun kv => kv.1 == k) scope).map (·.2)

/-- Python `name in scope`. -/
def Scope.mem (scope : Scope) (k : String) : Bool :=
  (scope.find? k).isSome

/-! ## Errors -/

/-- Exceptions that can escape the embedded code.  `usageError`,
`nothingToDo`, `unsupportedProviderError` and the generic `otherError` come
from the repository's `exceptions` module (all subclasses of its `Error`
class); the rest are built-in Python exceptions, plus `abort` for
`click.Abort` (the user answering "no" to a confirmation prompt) and
`clusterStateError` for the guard failures described by the spec. -/
inductive Err where
  | usageError (msg : String)
  | nothingToDo
  | unsupportedProviderError (provider : String)
  | clusterStateError
  | clusterNotFound (name : String)
  | otherError (msg : String)
  | keyError (key : String)
  | indexError
  | nameError (name : String)
  | typeError
  | attributeError
  | fileNotFoundError (path : String)
  | abort
  | otherException (msg : String)
deriving DecidableEq

/-! ## Option validation helpers -/

/-- Message raised by the `requires_all` loop of `option_requires`
(flintrock.py:83-89). -/
def requiresAllMsg (missing_option option : String) (conditional_value : Option Value) : String :=
  "Error: Missing option \"" ++ missing_option ++ "\" is required by \"" ++ option ++
    (match conditional_value with
     | Option.none => ""
     | Option.some v => " " ++ v.pyStr) ++ "\"."

/-- Message raised by the `requires_any` loop of `option_requires`
(flintrock.py:96-102). -/
def requiresAnyMsg (option : String) (conditional_value : Option Value)
    (requires_any : List String) : String :=
  "Error: \"" ++ option ++
    (match conditional_value with
     | Option.none => ""
     | Option.some v => " " ++ v.pyStr) ++
    "\" requires at least one of the following options to be set: " ++
    String.intercalate ", " (requires_any.map (fun ra => "\"" ++ ra ++ "\""))

/-- Embedding of `option_requires` (flintrock.py:59-102).  If
`conditional_value` is set, the requirement checks only run when the
option's value in scope equals it (Python short-circuits, so the scope is
not consulted at all when `conditional_value is None`).  `requires_all`
raises on the first listed option that is missing from scope or `None`;
`requires_any` raises when no listed option is present and non-`None`. -/
def option_requires (option : String) (conditional_value : Option Value)
    (requires_all requires_any : List String) (scope : Scope) : Except Err Unit := do
  let cond ←
    match conditional_value with
    | Option.none => pure true
    | Option.some cv =>
      match scope.find? (option_name_to_variable_name option) with
      | Option.none => throw (Err.keyError (option_name_to_variable_name option))
      | Option.some v => pure (decide (v = cv))
  if cond then
    match requires_all.find? (fun ro =>
        let rn := option_name_to_variable_name ro
        !(scope.mem rn) || scope.find? rn == some Value.none) with
    | Option.some missing =>
      throw (Err.usageError (requiresAllMsg missing option conditional_value))
    | Option.none =>
      if requires_any.isEmpty then pure ()
      else if requires_any.any (fun ra =>
          let rn := option_name_to_variable_name ra
          scope.mem rn && scope.find? rn != some Value.none) then
        pure ()
      else
        throw (Err.usageError (requiresAnyMsg option conditional_value requires_any))
  else
    pure ()

/-- Message raised by `mutually_exclusive` (flintrock.py:123-130). -/
def mutexMsg (name1 name2 : String) (v1 v2 : Value) : String :=
  "Error: \"" ++ variable_name_to_option_name name1 ++ "\" and \"" ++
    variable_name_to_option_name name2 ++ "\" are mutually exclusive.\n  " ++
    variable_name_to_option_name name1 ++ ": " ++ v1.pyStr ++ "\n  " ++
    variable_name_to_option_name name2 ++ ": " ++ v2.pyStr

/-- Embedding of `mutually_exclusive` (flintrock.py:105-130).  The source
collects the names of truthy mutually-exclusive options into a Python set
while scanning `scope.items()` and raises if more than one was used, naming
two options obtained by `set.pop()`.  The scopes used in `flintrock.py`
have distinct keys, so the collected names are exactly the truthy listed
options in scope order; `set.pop()` order is unspecified in Python and is
modelled here as that scan order. -/
def mutually_exclusive (options : List String) (scope : Scope) : Except Err Unit :=
  let names := options.map option_name_to_variable_name
  let used := (scope.filter (fun kv => names.contains kv.1 && kv.2.truthy)).map (·.1)
  match used with
  | o1 :: o2 :: _ =>
    Except.error (Err.usageError (mutexMsg o1 o2
      ((scope.find? o1).getD Value.none) ((scope.find? o2).getD Value.none)))
  | _ => Except.ok ()

/-! ## POSIX path helpers -/

/-- CPython `posixpath.basename`: the part of the path after the last `'/'`
(`i = p.rfind('/') + 1; return p[i:]`).  `flintrock.py` also applies
`os.path.basename` to the local path; on the POSIX platforms the tool runs
on, `os.path` is `posixpath`, so the same function models both. -/
def posixBasename (p : String) : String :=
  ⟨(p.data.reverse.takeWhile (fun c => c ≠ '/')).reverse⟩

/-- Python `s.startswith(pre)`, via the character data. -/
def strStartsWith (s pre : String) : Bool :=
  pre.data.isPrefixOf s.data

/-- Python `s.endswith(post)`, via the character data. -/
def strEndsWith (s post : String) : Bool :=
  post.data.isSuffixOf s.data

/-- CPython `posixpath.join` specialised to two arguments: an absolute
second path wins; otherwise the parts are joined, inserting `'/'` unless
the first part is empty or already ends in `'/'`. -/
def posixJoin (a b : String) : String :=
  if strStartsWith b "/" then b
  else if a = "" || strEndsWith a "/" then a ++ b
  else a ++ "/" ++ b

/-- Remote-path adjustment performed by `copy_file` (flintrock.py:616-619):
when the remote path has no file-name component, append the local file's
base name to it. -/
def copy_file_remote_path (local_path remote_path : String) : String :=
  if posixBasename remote_path = "" then
    posixJoin remote_path (posixBasename local_path)
  else remote_path

/-! ## Cluster data model and the effect environment -/

/-- Cluster object returned by `ec2.get_cluster` / `ec2.get_clusters`.
The `ec2` module is not part of the source under verification; the fields
are the ones `flintrock.py` reads (`name`, `master_host`, `slave_ips`). -/
structure Cluster where
  name : String
  master_host : String
  slave_ips : List String
deriving DecidableEq

/-- Service descriptor.  Modelled from the spec: the `HDFS` and `Spark`
classes live in the repository's `services` module, which is not part of
the source under verification; per the spec a service is parametrized by a
version, or — for the compute engine — alternatively by a
(source-repository, revision) pair, the two forms being mutually
exclusive.  `hdfs` stores the optional version exactly as passed
(`HDFS(version=hdfs_version)`). -/
inductive Service where
  | hdfs (version : Option String)
  | sparkVersion (version : String)
  | sparkGit (git_commit : String) (git_repository : String)
deriving DecidableEq

/-- Externally visible action performed by a command, in program order.
Remote (fleet/provider) operations, provider queries, console output and
confirmation prompts each get an event.  The `providerLaunch` event omits
the sixteen EC2 keyword parameters that `launch` forwards verbatim to
`ec2.launch`; only the payload the claims are about (name, size, services)
is recorded.  The `printUploadWarning` event abstracts the
`textwrap`-formatted upload warning of `copy_file` to its data. -/
inductive Event where
  | getCluster (cluster_name region : String)
  | getClusters (cluster_names : List String) (region : String)
  | guardCheck (op : String) (cluster : Cluster)
  | printMsg (msg : String)
  | printCluster (cluster : Cluster)
  | confirmPrompt (text : String)
  | printUploadWarning (total_size_bytes file_size_bytes num_nodes : Nat) (cluster_name : String)
  | serviceConstructed (service : Service)
  | providerLaunch (cluster_name : String) (num_slaves : Int) (services : List Service)
  | remoteDestroy (cluster : Cluster)
  | remoteLogin (cluster : Cluster) (user identity_file : Option String)
  | remoteStart (cluster : Cluster) (user identity_file : Option String)
  | remoteStop (cluster : Cluster)
  | remoteRunCommand (cluster : Cluster) (command : List String) (master_only : Bool)
      (user identity_file : Option String)
  | remoteCopyFile (cluster : Cluster) (local_path remote_path : String) (master_only : Bool)
      (user identity_file : Option String)
deriving DecidableEq

/-- Modelled from the spec: the collaborators of `flintrock.py` that are
not part of the source under verification — the `ec2` module's cluster
discovery (`get_cluster` / `get_clusters`) and the cluster objects' pure
lifecycle guards (`run_command_check`, `start_check`, `stop_check`,
`copy_file_check`, which per the spec inspect the cluster's derived
lifecycle state and raise `ClusterStateError` when the precondition fails),
the user's answer to `click.confirm` prompts, and `os.path.getsize`. -/
structure Env where
  getCluster : String → String → Except Err Cluster
  getClusters : List String → String → Except Err (List Cluster)
  run_command_check : Cluster → Except Err Unit
  start_check : Cluster → Except Err Unit
  stop_check : Cluster → Except Err Unit
  copy_file_check : Cluster → Except Err Unit
  confirmAnswer : Bool
  fileSize : String → Nat

/-- Modelled from the spec: `cluster.run_command` / `cluster.copy_file`
(in the `ec2` module, not part of the source under verification) target
the master only when the master-only flag is set and the full node set
(master plus every slave) otherwise. -/
def targetNodes (master_only : Bool) (c : Cluster) : List String :=
  if master_only then [c.master_host] else c.master_host :: c.slave_ips

/-- Stable insertion of a cluster into a list sorted by name. -/
def insertByName (c : Cluster) : List Cluster → List Cluster
  | [] => [c]
  | d :: rest => if c.name < d.name then c :: d :: rest else d :: insertByName c rest

/-- Python `sorted(clusters, key=lambda x: x.name)` (a stable sort by
name), implemented as insertion sort. -/
def sortedByName (clusters : List Cluster) : List Cluster :=
  clusters.foldl (fun acc c => insertByName c acc) []

/-! ## Lifecycle commands

Each command is embedded as a pure function of its Click-provided
arguments (with the option defaults of the decorators as Lean default
arguments where a structure is used), the provider string stored on the
Click context by `cli`, and the effect environment.  It returns the
command's outcome together with the trace of externally visible events in
program order.  The `cli_context` object present in each Python scope is
represented by an opaque value. -/

/-- Scope (`locals()`) of `destroy` at its `option_requires` call. -/
def destroy_scope (cluster_name : String) (assume_yes : Bool) (ec2_region : String)
    (provider : String) : Scope :=
  [("cli_context", Value.obj "cli_context"),
   ("cluster_name", Value.str cluster_name),
   ("assume_yes", Value.bool assume_yes),
   ("ec2_region", Value.str ec2_region),
   ("provider", Value.str provider)]

/-- Embedding of `destroy` (flintrock.py:300-331). -/
def destroy (env : Env) (cluster_name : String) (assume_yes : Bool) (ec2_region : String)
    (provider : String) : Except Err Unit × List Event :=
  match option_requires "--provider" (some (Value.str "ec2")) ["--ec2-region"] []
      (destroy_scope cluster_name assume_yes ec2_region provider) with
  | .error e => (.error e, [])
  | .ok _ =>
    if provider = "ec2" then
      match env.getCluster cluster_name ec2_region with
      | .error e => (.error e, [.getCluster cluster_name ec2_region])
      | .ok cluster =>
        let tr0 : List Event := [.getCluster cluster_name ec2_region]
        let finish : List Event :=
          [.printMsg ("Destroying " ++ cluster.name ++ "..."), .remoteDestroy cluster]
        if assume_yes then
          (.ok (), tr0 ++ finish)
        else
          let tr1 := tr0 ++ [.printCluster cluster,
            .confirmPrompt "Are you sure you want to destroy this cluster?"]
          if env.confirmAnswer then (.ok (), tr1 ++ finish)
          else (.error .abort, tr1)
    else (.error (.unsupportedProviderError provider), [])

/-- Scope of `describe` at its `option_requires` call (`search_area` has
just been initialised to the empty string). -/
def describe_scope (cluster_name : Option String) (master_hostname_only : Bool)
    (ec2_region : Option String) (provider : String) : Scope :=
  [("cli_context", Value.obj "cli_context"),
   ("cluster_name", optStr cluster_name),
   ("master_hostname_only", Value.bool master_hostname_only),
   ("ec2_region", optStr ec2_region),
   ("provider", Value.str provider),
   ("search_area", Value.str "")]

/-- Embedding of `describe` (flintrock.py:334-393).  `cluster_name` is an
optional Click argument; `--ec2-region` has no default here, hence the
option type. -/
def describe (env : Env) (cluster_name : Option String) (master_hostname_only : Bool)
    (ec2_region : Option String) (provider : String) : Except Err Unit × List Event :=
  match option_requires "--provider" (some (Value.str "ec2")) ["--ec2-region"] []
      (describe_scope cluster_name master_hostname_only ec2_region provider) with
  | .error e => (.error e, [])
  | .ok _ =>
    let cluster_names : List String :=
      if (optStr cluster_name).truthy then [cluster_name.getD ""] else []
    if provider = "ec2" then
      let search_area := "in region " ++ (ec2_region.getD "None")
      let region := ec2_region.getD "None"
      let tr0 : List Event := [.getClusters cluster_names region]
      match env.getClusters cluster_names region with
      | .error e => (.error e, tr0)
      | .ok clusters =>
        if (optStr cluster_name).truthy then
          match clusters with
          | [] => (.error .indexError, tr0)
          | cluster :: _ =>
            if master_hostname_only then
              (.ok (), tr0 ++ [.printMsg cluster.master_host])
            else
              (.ok (), tr0 ++ [.printCluster cluster])
        else
          if master_hostname_only then
            (.ok (), tr0 ++ (sortedByName clusters).map
              (fun c => .printMsg (c.name ++ ": " ++ c.master_host)))
          else
            let countMsg := "Found " ++ toString clusters.length ++ " cluster" ++
              (if clusters.length = 1 then "" else "s") ++
              (if search_area ≠ "" then " " else "") ++ search_area ++ "."
            if clusters.isEmpty then
              (.ok (), tr0 ++ [.printMsg countMsg])
            else
              (.ok (), tr0 ++ [.printMsg countMsg, .printMsg "---"] ++
                (sortedByName clusters).map Event.printCluster)
    else (.error (.unsupportedProviderError provider), [])

/-- Scope of `login` at its `option_requires` call. -/
def login_scope (cluster_name : String) (ec2_region : String)
    (ec2_identity_file ec2_user : Option String) (provider : String) : Scope :=
  [("cli_context", Value.obj "cli_context"),
   ("cluster_name", Value.str cluster_name),
   ("ec2_region", Value.str ec2_region),
   ("ec2_identity_file", optStr ec2_identity_file),
   ("ec2_user", optStr ec2_user),
   ("provider", Value.str provider)]

/-- Embedding of `login` (flintrock.py:397-432). -/
def login (env : Env) (cluster_name : String) (ec2_region : String)
    (ec2_identity_file ec2_user : Option String) (provider : String) :
    Except Err Unit × List Event :=
  match option_requires "--provider" (some (Value.str "ec2"))
      ["--ec2-region", "--ec2-identity-file", "--ec2-user"] []
      (login_scope cluster_name ec2_region ec2_identity_file ec2_user provider) with
  | .error e => (.error e, [])
  | .ok _ =>
    if provider = "ec2" then
      match env.getCluster cluster_name ec2_region with
      | .error e => (.error e, [.getCluster cluster_name ec2_region])
      | .ok cluster =>
        (.ok (), [.getCluster cluster_name ec2_region,
          .remoteLogin cluster ec2_user ec2_identity_file])
    else (.error (.unsupportedProviderError provider), [])

/-- Scope of `start` at its `option_requires` call. -/
def start_scope (cluster_name : String) (ec2_region : String)
    (ec2_identity_file ec2_user : Option String) (provider : String) : Scope :=
  [("cli_context", Value.obj "cli_context"),
   ("cluster_name", Value.str cluster_name),
   ("ec2_region", Value.str ec2_region),
   ("ec2_identity_file", optStr ec2_identity_file),
   ("ec2_user", optStr ec2_user),
   ("provider", Value.str provider)]

/-- Embedding of `start` (flintrock.py:435-470): discovery, then the
`start_check` guard, then the remote start. -/
def start (env : Env) (cluster_name : String) (ec2_region : String)
    (ec2_identity_file ec2_user : Option String) (provider : String) :
    Except Err Unit × List Event :=
  match option_requires "--provider" (some (Value.str "ec2"))
      ["--ec2-region", "--ec2-identity-file", "--ec2-user"] []
      (start_scope cluster_name ec2_region ec2_identity_file ec2_user provider) with
  | .error e => (.error e, [])
  | .ok _ =>
    if provider = "ec2" then
      match env.getCluster cluster_name ec2_region with
      | .error e => (.error e, [.getCluster cluster_name ec2_region])
      | .ok cluster =>
        let tr0 : List Event := [.getCluster cluster_name ec2_region]
        match env.start_check cluster with
        | .error e => (.error e, tr0 ++ [.guardCheck "start" cluster])
        | .ok _ =>
          (.ok (), tr0 ++ [.guardCheck "start" cluster,
            .printMsg ("Starting " ++ cluster_name ++ "..."),
            .remoteStart cluster ec2_user ec2_identity_file])
    else (.error (.unsupportedProviderError provider), [])

/-- Scope of `stop` at its `option_requires` call. -/
def stop_scope (cluster_name : String) (ec2_region : String) (assume_yes : Bool)
    (provider : String) : Scope :=
  [("cli_context", Value.obj "cli_context"),
   ("cluster_name", Value.str cluster_name),
   ("ec2_region", Value.str ec2_region),
   ("assume_yes", Value.bool assume_yes),
   ("provider", Value.str provider)]

/-- Embedding of `stop` (flintrock.py:473-507): discovery, the
`stop_check` guard, an optional confirmation, then the remote stop. -/
def stop (env : Env) (cluster_name : String) (ec2_region : String) (assume_yes : Bool)
    (provider : String) : Except Err Unit × List Event :=
  match option_requires "--provider" (some (Value.str "ec2")) ["--ec2-region"] []
      (stop_scope cluster_name ec2_region assume_yes provider) with
  | .error e => (.error e, [])
  | .ok _ =>
    if provider = "ec2" then
      match env.getCluster cluster_name ec2_region with
      | .error e => (.error e, [.getCluster cluster_name ec2_region])
      | .ok cluster =>
        let tr0 : List Event := [.getCluster cluster_name ec2_region]
        match env.stop_check cluster with
        | .error e => (.error e, tr0 ++ [.guardCheck "stop" cluster])
        | .ok _ =>
          let tr1 := tr0 ++ [.guardCheck "stop" cluster]
          let finish : List Event :=
            [.printMsg ("Stopping " ++ cluster_name ++ "..."),
             .remoteStop cluster,
             .printMsg (cluster_name ++ " is now stopped.")]
          if assume_yes then (.ok (), tr1 ++ finish)
          else
            let tr2 := tr1 ++ [.printCluster cluster,
              .confirmPrompt "Are you sure you want to stop this cluster?"]
            if env.confirmAnswer then (.ok (), tr2 ++ finish)
            else (.error .abort, tr2)
    else (.error (.unsupportedProviderError provider), [])

/-- Scope of `run_command` at its `option_requires` call. -/
def run_command_scope (cluster_name : String) (command : List String) (master_only : Bool)
    (ec2_region : String) (ec2_identity_file ec2_user : Option String)
    (provider : String) : Scope :=
  [("cli_context", Value.obj "cli_context"),
   ("cluster_name", Value.str cluster_name),
   ("command", Value.strList command),
   ("master_only", Value.bool master_only),
   ("ec2_region", Value.str ec2_region),
   ("ec2_identity_file", optStr ec2_identity_file),
   ("ec2_user", optStr ec2_user),
   ("provider", Value.str provider)]

/-- Embedding of `run_command` (flintrock.py:510-568): discovery, the
`run_command_check` guard, then the cluster-wide remote command. -/
def run_command (env : Env) (cluster_name : String) (command : List String)
    (master_only : Bool) (ec2_region : String) (ec2_identity_file ec2_user : Option String)
    (provider : String) : Except Err Unit × List Event :=
  match option_requires "--provider" (some (Value.str "ec2"))
      ["--ec2-region", "--ec2-identity-file", "--ec2-user"] []
      (run_command_scope cluster_name command master_only ec2_region
        ec2_identity_file ec2_user provider) with
  | .error e => (.error e, [])
  | .ok _ =>
    if provider = "ec2" then
      match env.getCluster cluster_name ec2_region with
      | .error e => (.error e, [.getCluster cluster_name ec2_region])
      | .ok cluster =>
        let tr0 : List Event := [.getCluster cluster_name ec2_region]
        match env.run_command_check cluster with
        | .error e => (.error e, tr0 ++ [.guardCheck "run_command" cluster])
        | .ok _ =>
          (.ok (), tr0 ++ [.guardCheck "run_command" cluster,
            .printMsg ("Running command on " ++
              (if master_only then "master only" else "cluster") ++ "..."),
            .remoteRunCommand cluster command master_only ec2_user ec2_identity_file])
    else (.error (.unsupportedProviderError provider), [])

/-- Scope of `copy_file` at its `option_requires` call. -/
def copy_file_scope (cluster_name local_path remote_path : String) (master_only : Bool)
    (ec2_region : String) (ec2_identity_file ec2_user : Option String) (assume_yes : Bool)
    (provider : String) : Scope :=
  [("cli_context", Value.obj "cli_context"),
   ("cluster_name", Value.str cluster_name),
   ("local_path", Value.str local_path),
   ("remote_path", Value.str remote_path),
   ("master_only", Value.bool master_only),
   ("ec2_region", Value.str ec2_region),
   ("ec2_identity_file", optStr ec2_identity_file),
   ("ec2_user", optStr ec2_user),
   ("assume_yes", Value.bool assume_yes),
   ("provider", Value.str provider)]

/-- Embedding of `copy_file` (flintrock.py:571-667): validation, the
remote-path adjustment, discovery, the `copy_file_check` guard, the
large-upload warning and confirmation, then the cluster-wide copy. -/
def copy_file (env : Env) (cluster_name local_path remote_path : String)
    (master_only : Bool) (ec2_region : String) (ec2_identity_file ec2_user : Option String)
    (assume_yes : Bool) (provider : String) : Except Err Unit × List Event :=
  match option_requires "--provider" (some (Value.str "ec2"))
      ["--ec2-region", "--ec2-identity-file", "--ec2-user"] []
      (copy_file_scope cluster_name local_path remote_path master_only ec2_region
        ec2_identity_file ec2_user assume_yes provider) with
  | .error e => (.error e, [])
  | .ok _ =>
    let remote_path' := copy_file_remote_path local_path remote_path
    if provider = "ec2" then
      match env.getCluster cluster_name ec2_region with
      | .error e => (.error e, [.getCluster cluster_name ec2_region])
      | .ok cluster =>
        let tr0 : List Event := [.getCluster cluster_name ec2_region]
        match env.copy_file_check cluster with
        | .error e => (.error e, tr0 ++ [.guardCheck "copy_file" cluster])
        | .ok _ =>
          let tr1 := tr0 ++ [.guardCheck "copy_file" cluster]
          let finish : List Event :=
            [.printMsg ("Copying file to " ++
              (if master_only then "master only" else "cluster") ++ "..."),
             .remoteCopyFile cluster local_path remote_path' master_only
               ec2_user ec2_identity_file]
          if !assume_yes && !master_only then
            let file_size_bytes := env.fileSize local_path
            let num_nodes := cluster.slave_ips.length + 1
            let total_size_bytes := file_size_bytes * num_nodes
            if total_size_bytes > 10 ^ 6 then
              let tr2 := tr1 ++
                [.printMsg "WARNING:",
                 .printUploadWarning total_size_bytes file_size_bytes num_nodes cluster_name,
                 .confirmPrompt "Are you sure you want to continue?"]
              if env.confirmAnswer then (.ok (), tr2 ++ finish)
              else (.error .abort, tr2)
            else (.ok (), tr1 ++ finish)
          else (.ok (), tr1 ++ finish)
    else (.error (.unsupportedProviderError provider), [])

/-! ## The launch command -/

/-- Arguments of `launch` (flintrock.py:166-228).  The Lean default values
mirror the Click option defaults.  `ec2_spot_price` is a `float` option in
the source, forwarded without arithmetic; it is modelled with an integer
payload. -/
structure LaunchArgs where
  cluster_name : String
  num_slaves : Int
  install_hdfs : Bool := false
  hdfs_version : Option String := Option.none
  install_spark : Bool := true
  spark_version : Option String := Option.none
  spark_git_commit : Option String := Option.none
  spark_git_repository : String := "https://github.com/apache/spark.git"
  assume_yes : Bool := false
  ec2_key_name : Option String := Option.none
  ec2_identity_file : Option String := Option.none
  ec2_instance_type : String := "m3.medium"
  ec2_region : String := "us-east-1"
  ec2_availability_zone : String := ""
  ec2_ami : Option String := Option.none
  ec2_user : Option String := Option.none
  ec2_spot_price : Option Int := Option.none
  ec2_vpc_id : String := ""
  ec2_subnet_id : String := ""
  ec2_instance_profile_name : String := ""
  ec2_placement_group : String := ""
  ec2_tenancy : String := "default"
  ec2_ebs_optimized : Bool := false
  ec2_instance_initiated_shutdown_behavior : String := "stop"
deriving DecidableEq

/-- Scope of `launch` at its validation calls (flintrock.py:232-260):
every parameter, plus `provider` and the freshly initialised empty
`services` list. -/
def launch_scope (a : LaunchArgs) (provider : String) : Scope :=
  [("cli_context", Value.obj "cli_context"),
   ("cluster_name", Value.str a.cluster_name),
   ("num_slaves", Value.int a.num_slaves),
   ("install_hdfs", Value.bool a.install_hdfs),
   ("hdfs_version", optStr a.hdfs_version),
   ("install_spark", Value.bool a.install_spark),
   ("spark_version", optStr a.spark_version),
   ("spark_git_commit", optStr a.spark_git_commit),
   ("spark_git_repository", Value.str a.spark_git_repository),
   ("assume_yes", Value.bool a.assume_yes),
   ("ec2_key_name", optStr a.ec2_key_name),
   ("ec2_identity_file", optStr a.ec2_identity_file),
   ("ec2_instance_type", Value.str a.ec2_instance_type),
   ("ec2_region", Value.str a.ec2_region),
   ("ec2_availability_zone", Value.str a.ec2_availability_zone),
   ("ec2_ami", optStr a.ec2_ami),
   ("ec2_user", optStr a.ec2_user),
   ("ec2_spot_price", match a.ec2_spot_price with
     | Option.none => Value.none
     | Option.some n => Value.int n),
   ("ec2_vpc_id", Value.str a.ec2_vpc_id),
   ("ec2_subnet_id", Value.str a.ec2_subnet_id),
   ("ec2_instance_profile_name", Value.str a.ec2_instance_profile_name),
   ("ec2_placement_group", Value.str a.ec2_placement_group),
   ("ec2_tenancy", Value.str a.ec2_tenancy),
   ("ec2_ebs_optimized", Value.bool a.ec2_ebs_optimized),
   ("ec2_instance_initiated_shutdown_behavior",
     Value.str a.ec2_instance_initiated_shutdown_behavior),
   ("provider", Value.str provider),
   ("services", Value.obj "services")]

/-- Validation phase of `launch` (flintrock.py:235-260), in source order:
the HDFS version requirement, the Spark version-or-commit requirement, the
mutual exclusion of the two Spark sources, and the EC2 provider
requirements. -/
def launchValidation (a : LaunchArgs) (provider : String) : Except Err Unit := do
  let scope := launch_scope a provider
  option_requires "--install-hdfs" Option.none ["--hdfs-version"] [] scope
  option_requires "--install-spark" Option.none []
    ["--spark-version", "--spark-git-commit"] scope
  mutually_exclusive ["--spark-version", "--spark-git-commit"] scope
  option_requires "--provider" (some (Value.str "ec2"))
    ["--ec2-key-name", "--ec2-identity-file", "--ec2-instance-type",
     "--ec2-region", "--ec2-ami", "--ec2-user"] [] scope

/-- Warning printed before building Spark from a git commit
(flintrock.py:269-270). -/
def buildSparkWarning : String :=
  "Warning: Building Spark takes a long time. " ++
  "e.g. 15-20 minutes on an m3.xlarge instance on EC2."

/-- Service-construction phase of `launch` (flintrock.py:262-273).  When
`install_spark` is set but neither Spark source is truthy, the Python code
reads the unassigned local `spark` in `services += [spark]`, raising
`UnboundLocalError` (a subclass of `NameError`), modelled as
`Err.nameError "spark"`. -/
def buildServices (a : LaunchArgs) : Except Err (List Service) × List Event :=
  let hdfsServices : List Service :=
    if a.install_hdfs then [Service.hdfs a.hdfs_version] else []
  let hdfsEvents : List Event := hdfsServices.map Event.serviceConstructed
  if a.install_spark then
    if (optStr a.spark_version).truthy then
      let s := Service.sparkVersion (a.spark_version.getD "")
      (.ok (hdfsServices ++ [s]), hdfsEvents ++ [.serviceConstructed s])
    else if (optStr a.spark_git_commit).truthy then
      let s := Service.sparkGit (a.spark_git_commit.getD "") a.spark_git_repository
      (.ok (hdfsServices ++ [s]),
        hdfsEvents ++ [.printMsg buildSparkWarning, .serviceConstructed s])
    else
      (.error (.nameError "spark"), hdfsEvents)
  else
    (.ok hdfsServices, hdfsEvents)

/-- Embedding of `launch` (flintrock.py:166-297): validation, service
construction, then the provider dispatch to `ec2.launch`. -/
def launch (env : Env) (a : LaunchArgs) (provider : String) :
    Except Err Unit × List Event :=
  match launchValidation a provider with
  | .error e => (.error e, [])
  | .ok _ =>
    match buildServices a with
    | (.error e, tr) => (.error e, tr)
    | (.ok services, tr) =>
      if provider = "ec2" then
        (.ok (), tr ++ [.providerLaunch a.cluster_name a.num_slaves services])
      else
        (.error (.unsupportedProviderError provider), tr)

/-! ## Exit codes -/

/-- Embedding of `main` (flintrock.py:763-784) as a function of the
outcome of `cli(obj={})`.  The result is the Python return value of
`main`: `none` models the implicit `None` returned when `cli` raises no
exception (the `try` block falls through without a `return` statement).
The development-mode warning filter and the traceback printed for
non-`Error` exceptions do not affect the returned value and are not
modelled. -/
def main (outcome : Except Err Unit) : Option Int :=
  match outcome with
  | .ok _ => Option.none
  | .error Err.nothingToDo => some 0
  | .error (Err.usageError _) => some 2
  | .error _ => some 1

/-- Modelled from the spec: the console entry point that runs
`sys.exit(main())` is packaging glue outside the source under
verification; `sys.exit(None)` terminates the process with status 0 and
`sys.exit(n)` with status `n`. -/
def processExitCode : Option Int → Int
  | Option.none => 0
  | some n => n

/-! ## Configuration loading (`cli`, `normalize_keys`, `config_to_click`) -/

/-- YAML document as produced by `yaml.safe_load`: scalars, sequences and
mappings (mappings keep key order and, coming from YAML, have distinct
keys). -/
inductive Yaml where
  | null
  | bool (b : Bool)
  | int (n : Int)
  | str (s : String)
  | list (items : List Yaml)
  | dict (entries : List (String × Yaml))

/-- Python-dict entries: an ordered association list with distinct keys. -/
abbrev Dict := List (String × Yaml)

/-- Python `d[k] = v`: replace in place if the key exists, else append. -/
def dictInsert (d : Dict) (k : String) (v : Yaml) : Dict :=
  if d.any (fun kv => kv.1 == k) then
    d.map (fun kv => if kv.1 == k then (k, v) else kv)
  else d ++ [(k, v)]

/-- Python `d.update(entries)` / `dict(pairs)`: insert each pair in order,
later pairs overwriting earlier keys. -/
def dictUpdate (d : Dict) (entries : Dict) : Dict :=
  entries.foldl (fun acc kv => dictInsert acc kv.1 kv.2) d

/-- Python `d[k]` lookup, `none` on a missing key. -/
def dictFind? (d : Dict) (k : String) : Option Yaml :=
  (List.find? (fun kv => kv.1 == k) d).map (·.2)

/-- Python `k in d`. -/
def dictContains (d : Dict) (k : String) : Bool :=
  (dictFind? d k).isSome

/-- Python truthiness of a YAML value. -/
def yamlTruthy : Yaml → Bool
  | .null => false
  | .bool b => b
  | .int n => n ≠ 0
  | .str s => s ≠ ""
  | .list items => !items.isEmpty
  | .dict es => !es.isEmpty

mutual
/-- Embedding of `normalize_keys` (flintrock.py:670-677): non-dicts are
returned unchanged (including lists — Python does not recurse into them);
dict keys have every `'-'` replaced by `'_'` and dict values are
normalised recursively. -/
def normalize_keys : Yaml → Yaml
  | .dict es => .dict (normalize_keys_entries es)
  | y => y

/-- Entry-wise worker of `normalize_keys` over the entries of a mapping. -/
def normalize_keys_entries : List (String × Yaml) → List (String × Yaml)
  | [] => []
  | (k, v) :: rest =>
    (pyReplace k "-" "_" Option.none, normalize_keys v) :: normalize_keys_entries rest
end

/-- Accumulation of `service_configs` over the entries of
`config['services']` (flintrock.py:695-699): for each truthy service
configuration, merge its items prefixed with `service + '_'`; a truthy
non-mapping configuration makes Python's `.items()` raise
`AttributeError`. -/
def serviceConfigsGo (acc : Dict) : Dict → Except Err Dict
  | [] => .ok acc
  | (service, cfg) :: rest =>
    if yamlTruthy cfg then
      match cfg with
      | .dict entries =>
        serviceConfigsGo
          (dictUpdate acc (entries.map (fun kv => (service ++ "_" ++ kv.1, kv.2)))) rest
      | _ => .error .attributeError
    else serviceConfigsGo acc rest

/-- Embedding of `config_to_click` (flintrock.py:680-718).  A deprecated
`modules` section is copied onto `services` (the accompanying deprecation
warning is console output only and is not modelled); `service_configs` and
`ec2_configs` are assembled and the per-command Click default map is
built.  Missing `providers`/`ec2`/`launch` keys raise `KeyError`;
subscripting or iterating non-mapping values raises
`TypeError`/`AttributeError` as in Python; a non-mapping root raises
`TypeError`. -/
def config_to_click (config : Yaml) : Except Err (List (String × Dict)) := do
  match config with
  | .dict entries0 =>
    let entries :=
      match dictFind? entries0 "modules" with
      | Option.some m => dictInsert entries0 "services" m
      | Option.none => entries0
    let service_configs ←
      match dictFind? entries "services" with
      | Option.some (.dict svcEntries) => serviceConfigsGo [] svcEntries
      | Option.some _ => throw Err.typeError
      | Option.none => pure []
    let ec2Entries ←
      match dictFind? entries "providers" with
      | Option.some (.dict pEntries) =>
        match dictFind? pEntries "ec2" with
        | Option.some (.dict e) => pure e
        | Option.some _ => throw Err.attributeError
        | Option.none => throw (Err.keyError "ec2")
      | Option.some _ => throw Err.typeError
      | Option.none => throw (Err.keyError "providers")
    let ec2_configs : Dict := ec2Entries.map (fun kv => ("ec2_" ++ kv.1, kv.2))
    let launchEntries ←
      match dictFind? entries "launch" with
      | Option.some (.dict l) => pure l
      | Option.some _ => throw Err.attributeError
      | Option.none => throw (Err.keyError "launch")
    let launchMap :=
      dictUpdate (dictUpdate (dictUpdate [] launchEntries) ec2_configs) service_configs
    pure [("launch", launchMap),
          ("describe", ec2_configs),
          ("destroy", ec2_configs),
          ("login", ec2_configs),
          ("start", ec2_configs),
          ("stop", ec2_configs),
          ("run-command", ec2_configs),
          ("copy-file", ec2_configs)]
  | _ => throw Err.typeError

/-- Filesystem and parser collaborators of `cli`: `click.get_app_dir`
(`appDir`), `os.path.isfile`, and opening plus `yaml.safe_load`-ing a
file. -/
structure CliEnv where
  appDir : String
  isFile : String → Bool
  readYaml : String → Except Err Yaml

/-- Embedding of `get_config_file` (flintrock.py:133-139):
`os.path.join(click.get_app_dir('Flintrock'), 'config.yaml')` (POSIX
join on the platforms the tool targets). -/
def get_config_file (env : CliEnv) : String :=
  posixJoin env.appDir "config.yaml"

/-- Embedding of the `cli` group callback (flintrock.py:142-163) as a
function of the `--config` and `--provider` option values (Click fills
`config` with `get_config_file()` by default).  The result is the default
map installed on the Click context: `some map` when a configuration file
was loaded, `none` when the default location does not exist; a missing
non-default path raises `FileNotFoundError`.  Storing the provider on the
context object is modelled by each command embedding taking the provider
as an argument. -/
def cli (env : CliEnv) (config : String) (provider : String) :
    Except Err (Option (List (String × Dict))) :=
  if env.isFile config then
    match env.readYaml config with
    | .error e => .error e
    | .ok config_raw =>
      match config_to_click (normalize_keys config_raw) with
      | .error e => .error e
      | .ok config_map => .ok (some config_map)
  else
    if config ≠ get_config_file env then
      .error (.fileNotFoundError config)
    else
      .ok Option.none

/-! ## Trace predicates -/

/-- Does this event denote a remote side effect (a fleet operation or a
provider mutation)? -/
def Event.isRemoteOp : Event → Bool
  | .remoteDestroy _ => true
  | .remoteLogin .. => true
  | .remoteStart .. => true
  | .remoteStop _ => true
  | .remoteRunCommand .. => true
  | .remoteCopyFile .. => true
  | .providerLaunch .. => true
  | _ => false

/-- Does this event denote the evaluation of a lifecycle guard? -/
def Event.isGuardCheck : Event → Bool
  | .guardCheck .. => true
  | _ => false

/-- The cluster object an event operates on, if any. -/
def Event.clusterOf : Event → Option Cluster
  | .guardCheck _ c => some c
  | .printCluster c => some c
  | .remoteDestroy c => some c
  | .remoteLogin c .. => some c
  | .remoteStart c .. => some c
  | .remoteStop c => some c
  | .remoteRunCommand c .. => some c
  | .remoteCopyFile c .. => some c
  | _ => Option.none

/-- In the trace `tr`, no remote operation occurs before the first guard
evaluation. -/
def guardPrecedesRemote (tr : List Event) : Prop :=
  (tr.takeWhile (fun e => !e.isGuardCheck)).all (fun e => !e.isRemoteOp) = true

/-! ## Concrete fixtures used to instantiate the theorems -/

/-- A concrete cluster, as a provider query could return it. -/
def cluster0 : Cluster :=
  { name := "test-cluster", master_host := "master.example", slave_ips := ["10.0.0.1", "10.0.0.2"] }

/-- A concrete effect environment in which discovery succeeds with
`cluster0`, every lifecycle guard passes, prompts are answered yes, and
the local file is small. -/
def env0 : Env :=
  { getCluster := fun _ _ => .ok cluster0
    getClusters := fun _ _ => .ok [cluster0]
    run_command_check := fun _ => .ok ()
    start_check := fun _ => .ok ()
    stop_check := fun _ => .ok ()
    copy_file_check := fun _ => .ok ()
    confirmAnswer := true
    fileSize := fun _ => 1000 }

/-- Concrete `launch` arguments supplying both Spark sources while
leaving `--hdfs-version` unset (with `--install-hdfs` itself unset, as by
default). -/
def argsBothSparkNoHdfs : LaunchArgs :=
  { cluster_name := "c", num_slaves := 1,
    spark_version := some "2.0.0", spark_git_commit := some "0a1b2c3" }

/-- Concrete `launch` arguments supplying both Spark sources and an HDFS
version. -/
def argsBothSpark : LaunchArgs :=
  { argsBothSparkNoHdfs with hdfs_version := some "2.7.6" }

/-- Concrete `launch` arguments supplying exactly one Spark source. -/
def argsOneSpark : LaunchArgs :=
  { cluster_name := "c", num_slaves := 1, hdfs_version := some "2.7.6",
    spark_version := some "2.0.0" }

/-- Concrete `launch` arguments that pass validation (every required
option is non-`None`) while supplying the empty string as
`--spark-version`. -/
def argsEmptySparkVersion : LaunchArgs :=
  { cluster_name := "c", num_slaves := 1, hdfs_version := some "2.7.6",
    spark_version := some "",
    ec2_key_name := some "k", ec2_identity_file := some "i.pem",
    ec2_ami := some "ami-123", ec2_user := some "ec2-user" }

/-- Concrete `launch` arguments that pass validation and request both
services with a non-empty Spark version. -/
def argsFullLaunch : LaunchArgs :=
  { cluster_name := "c", num_slaves := 1, install_hdfs := true,
    hdfs_version := some "2.7.6", spark_version := some "2.0.0",
    ec2_key_name := some "k", ec2_identity_file := some "i.pem",
    ec2_ami := some "ami-123", ec2_user := some "ec2-user" }

/-- A concrete effect environment in which every lifecycle guard raises
`ClusterStateError`. -/
def envGuardFail : Env :=
  { getCluster := fun _ _ => .ok cluster0
    getClusters := fun _ _ => .ok [cluster0]
    run_command_check := fun _ => .error .clusterStateError
    start_check := fun _ => .error .clusterStateError
    stop_check := fun _ => .error .clusterStateError
    copy_file_check := fun _ => .error .clusterStateError
    confirmAnswer := true
    fileSize := fun _ => 1000 }

/-- A concrete YAML configuration with a provider section and launch
defaults. -/
def yaml0 : Yaml :=
  .dict [("providers", .dict [("ec2", .dict [("key-name", .str "k")])]),
         ("launch", .dict [("num-slaves", .int 2)])]

/-- A concrete `cli` environment in which every path exists and parses to
`yaml0`. -/
def cliEnvLoaded : CliEnv :=
  { appDir := "/home/user/.config/flintrock"
    isFile := fun _ => true
    readYaml := fun _ => .ok yaml0 }

/-- A concrete `cli` environment with no configuration file anywhere. -/
def cliEnvMissingDefault : CliEnv :=
  { appDir := "/home/user/.config/flintrock"
    isFile := fun _ => false
    readYaml := fun _ => .error .typeError }

/-! # Theorems -/

/-! ## Helper lemmas about `replaceGo` -/

/-- String extensionality via character data. -/
theorem str_ext {a b : String} (h : a.data = b.data) : a = b := by
  cases a; cases b; exact congrArg String.mk h

/-- A replacement with an exhausted budget leaves the string unchanged. -/
theorem replaceGo_count_zero (old new s : List Char) :
    replaceGo old new s 0 (some 0) = s := by
  cases s <;> simp [replaceGo]

/-- Unlimited single-character replacement is a map over the characters. -/
theorem replaceGo_single (a b : Char) (s : List Char) :
    replaceGo [a] [b] s 0 Option.none =
      s.map (fun c => if c = a then b else c) := by
  induction s with
  | nil => simp [replaceGo]
  | cons c rest ih =>
    by_cases h : a = c
    · subst h
      simp [replaceGo, List.isPrefixOf, ih]
    · simp [replaceGo, List.isPrefixOf, Ne.symm h, h, ih]

/-- Removing the first occurrence of `"--"` from a string that starts with
`"--"` removes exactly that leading occurrence. -/
theorem replaceGo_dashdash (t : List Char) :
    replaceGo ['-', '-'] [] ('-' :: '-' :: t) 0 (some 1) = t := by
  simp [replaceGo, List.isPrefixOf, replaceGo_count_zero]

/-- Swapping underscores to hyphens and then hyphens to underscores is the
identity on hyphen-free character lists. -/
theorem mapSwap_of_no_dash (l : List Char) (h : l.all (fun c => c ≠ '-') = true) :
    (l.map (fun c => if c = '_' then '-' else c)).map
      (fun c => if c = '-' then '_' else c) = l := by
  induction l with
  | nil => simp
  | cons c rest ih =>
    simp only [List.all_cons, Bool.and_eq_true, decide_eq_true_eq] at h
    obtain ⟨hc, hrest⟩ := h
    simp only [List.map_cons, ih hrest]
    by_cases h' : c = '_'
    · subst h'; simp
    · simp [h', hc]

/-- Swapping hyphens to underscores and then underscores to hyphens is the
identity on underscore-free character lists. -/
theorem mapSwap_of_no_underscore (l : List Char)
    (h : l.all (fun c => c ≠ '_') = true) :
    (l.map (fun c => if c = '-' then '_' else c)).map
      (fun c => if c = '_' then '-' else c) = l := by
  induction l with
  | nil => simp
  | cons c rest ih =>
    simp only [List.all_cons, Bool.and_eq_true, decide_eq_true_eq] at h
    obtain ⟨hc, hrest⟩ := h
    simp only [List.map_cons, ih hrest]
    by_cases h' : c = '-'
    · subst h'; simp
    · simp [h', hc]

/-- C8: the option/variable name conversions are mutually inverse on their
intended domains: `option_name_to_variable_name` undoes
`variable_name_to_option_name` on every variable name containing no
hyphen, and `variable_name_to_option_name` undoes
`option_name_to_variable_name` on every option name consisting of `"--"`
followed by characters with no underscore and no further `"--"`. -/
theorem option_variable_name_conversions_inverse :
    (∀ v : String, v.data.all (fun c => c ≠ '-') = true →
      option_name_to_variable_name (variable_name_to_option_name v) = v)
    ∧ (∀ o : String, (∃ t : List Char, o.data = '-' :: '-' :: t ∧
        t.all (fun c => c ≠ '_') = true ∧ hasDoubleDash t = false) →
      variable_name_to_option_name (option_name_to_variable_name o) = o) := by
  constructor
  · intro v hv
    apply str_ext
    have e1 : (variable_name_to_option_name v).data
        = '-' :: '-' :: v.data.map (fun c => if c = '_' then '-' else c) := by
      show ['-', '-'] ++ replaceGo ['_'] ['-'] v.data 0 Option.none = _
      rw [replaceGo_single]
      rfl
    show replaceGo ['-'] ['_']
        (replaceGo ['-', '-'] [] (variable_name_to_option_name v).data 0 (some 1))
        0 Option.none = v.data
    rw [e1, replaceGo_dashdash, replaceGo_single, mapSwap_of_no_dash _ hv]
  · intro o ho
    obtain ⟨t, hdata, hnous, _⟩ := ho
    apply str_ext
    have e1 : (option_name_to_variable_name o).data
        = t.map (fun c => if c = '-' then '_' else c) := by
      show replaceGo ['-'] ['_']
          (replaceGo ['-', '-'] [] o.data 0 (some 1)) 0 Option.none = _
      rw [hdata, replaceGo_dashdash, replaceGo_single]
    show ['-', '-'] ++
        replaceGo ['_'] ['-'] (option_name_to_variable_name o).data 0 Option.none
        = o.data
    rw [e1, replaceGo_single, mapSwap_of_no_underscore _ hnous, hdata]
    rfl

/-- Witness for C8 at the concrete names `ec2_user` / `--ec2-user`. -/
theorem option_variable_name_conversions_inverse_witness :
    option_name_to_variable_name (variable_name_to_option_name "ec2_user") = "ec2_user"
    ∧ variable_name_to_option_name (option_name_to_variable_name "--ec2-user")
        = "--ec2-user" :=
  ⟨option_variable_name_conversions_inverse.1 "ec2_user" (by decide),
   option_variable_name_conversions_inverse.2 "--ec2-user"
     ⟨['e', 'c', '2', '-', 'u', 's', 'e', 'r'], by decide⟩⟩

/-- C2: the process exit code follows the convention: 0 when no error was
raised or when the run ended in `NothingToDo` (every targeted node
succeeded), 2 for a `UsageError`, 1 for any other raised error — and in
particular every raised error other than `NothingToDo` yields a nonzero
exit code, so per-node failures surfaced as exceptions are never swallowed
into a zero status. -/
theorem main_exit_code_convention :
    processExitCode (main (Except.ok ())) = 0
    ∧ processExitCode (main (Except.error Err.nothingToDo)) = 0
    ∧ (∀ m : String, processExitCode (main (Except.error (Err.usageError m))) = 2)
    ∧ (∀ e : Err, e ≠ Err.nothingToDo → (∀ m, e ≠ Err.usageError m) →
        processExitCode (main (Except.error e)) = 1)
    ∧ (∀ e : Err, e ≠ Err.nothingToDo →
        processExitCode (main (Except.error e)) ≠ 0) := by
  refine ⟨rfl, rfl, fun m => rfl, fun e h1 h2 => ?_, fun e h1 => ?_⟩
  · cases e <;> first
      | rfl
      | exact absurd rfl h1
      | exact absurd rfl (h2 _)
  · cases e <;> simp [main, processExitCode] at h1 ⊢

/-- Witness for C2 at concrete outcomes: a `ClusterStateError` (any node
failure surfaced as an error) exits with 1, and it is nonzero. -/
theorem main_exit_code_convention_witness :
    processExitCode (main (Except.error Err.clusterStateError)) = 1
    ∧ processExitCode (main (Except.error Err.clusterStateError)) ≠ 0 :=
  ⟨main_exit_code_convention.2.2.2.1 Err.clusterStateError (by decide)
     (fun m => by simp),
   main_exit_code_convention.2.2.2.2 Err.clusterStateError (by decide)⟩

/-- A string ending in a slash has an empty POSIX basename. -/
theorem posixBasename_trailing_slash (q : String) : posixBasename (q ++ "/") = "" := by
  apply str_ext
  show ((q ++ "/").data.reverse.takeWhile (fun c => c ≠ '/')).reverse = []
  rw [String.data_append]
  simp

/-- C4: the remote path handed to the cluster-wide copy is always the
resolved path computed once from the command's arguments (hence identical
for every targeted node); when the destination has no file-name component
(empty POSIX basename, e.g. a path ending in `'/'`), that resolved path is
the destination joined with the base name of the local file, and otherwise
it is the destination unchanged. -/
theorem copy_file_remote_path_resolution :
    (∀ env cluster_name local_path remote_path master_only ec2_region
        ec2_identity_file ec2_user assume_yes provider c lp rp mo u i,
      Event.remoteCopyFile c lp rp mo u i ∈
        (copy_file env cluster_name local_path remote_path master_only ec2_region
          ec2_identity_file ec2_user assume_yes provider).2 →
      rp = copy_file_remote_path local_path remote_path)
    ∧ (∀ local_path remote_path, posixBasename remote_path = "" →
        copy_file_remote_path local_path remote_path
          = posixJoin remote_path (posixBasename local_path))
    ∧ (∀ local_path remote_path, posixBasename remote_path ≠ "" →
        copy_file_remote_path local_path remote_path = remote_path)
    ∧ (∀ q : String, posixBasename (q ++ "/") = "") := by
  refine ⟨?_, ?_, ?_, posixBasename_trailing_slash⟩
  · intro env cn lp0 rp0 mo0 reg idf usr ay prov c lp rp mo u i h
    unfold copy_file at h
    repeat' split at h
    all_goals simp only [apply_ite Prod.snd] at h
    all_goals try split at h
    all_goals simp_all
  · intro lp rp h
    simp [copy_file_remote_path, h]
  · intro lp rp h
    simp [copy_file_remote_path, h]

/-- Witness for C4: copying `/tmp/file.102.txt` to destination `/tmp/`
resolves to `/tmp/file.102.txt`, and that resolved path is the one handed
to the cluster-wide copy. -/
theorem copy_file_remote_path_resolution_witness :
    "/tmp/file.102.txt" = copy_file_remote_path "/tmp/file.102.txt" "/tmp/"
    ∧ posixBasename "/tmp/" = "" :=
  ⟨copy_file_remote_path_resolution.1 env0 "test-cluster" "/tmp/file.102.txt" "/tmp/"
      false "us-east-1" (some "k.pem") (some "ec2-user") true "ec2" cluster0
      "/tmp/file.102.txt" "/tmp/file.102.txt" false (some "ec2-user") (some "k.pem")
      (by decide),
   by decide⟩

/-- The `option_requires` call of `describe` succeeds whenever the
provider is `"ec2"` and a region is supplied; this is a pure computation
over the scope, independent of the other argument values. -/
theorem describe_option_requires_eval (name : Option String) (mho : Bool) (reg : String) :
    option_requires "--provider" (some (Value.str "ec2")) ["--ec2-region"] []
      (describe_scope name mho (some reg) "ec2") = Except.ok () := rfl

/-- C9: with a cluster name, `describe` unconditionally reads the first
element of the list returned by `ec2.get_clusters`: when discovery returns
the empty list, `describe` itself fails with an `IndexError`; whenever
discovery returns a non-empty list, the access is in bounds and `describe`
completes normally. -/
theorem describe_first_cluster_access :
    (∀ (env : Env) (name : String) (mho : Bool) (reg : String), name ≠ "" →
      env.getClusters [name] reg = .ok [] →
      (describe env (some name) mho (some reg) "ec2").1 = .error .indexError)
    ∧ (∀ (env : Env) (name : String) (mho : Bool) (reg : String)
        (clusters : List Cluster), name ≠ "" →
      env.getClusters [name] reg = .ok clusters → clusters ≠ [] →
      (describe env (some name) mho (some reg) "ec2").1 = .ok ()) := by
  constructor
  · intro env name mho reg hname hempty
    unfold describe
    rw [describe_option_requires_eval]
    simp only [optStr, Value.truthy, hname, ne_eq, not_false_eq_true, decide_True,
      if_true, reduceIte, Option.getD_some]
    rw [hempty]
  · intro env name mho reg clusters hname hclusters hne
    obtain ⟨c, rest, rfl⟩ : ∃ c rest, clusters = c :: rest := by
      cases clusters with
      | nil => exact absurd rfl hne
      | cons c rest => exact ⟨c, rest, rfl⟩
    unfold describe
    rw [describe_option_requires_eval]
    simp only [optStr, Value.truthy, hname, ne_eq, not_false_eq_true, decide_True,
      if_true, reduceIte, Option.getD_some]
    rw [hclusters]
    cases mho <;> simp

/-- Witness for C9: with the fixture environment (discovery returning the
one-element list `[cluster0]`) describe on `test-cluster` succeeds. -/
theorem describe_first_cluster_access_witness :
    (describe env0 (some "test-cluster") true (some "us-east-1") "ec2").1 = .ok () :=
  describe_first_cluster_access.2 env0 "test-cluster" true "us-east-1" [cluster0]
    (by decide) rfl (by decide)

/-- C7: `run_command` and `copy_file` forward the master-only flag (and
the command / paths) unchanged to the cluster operation, which targets the
master alone when the flag is set and the full node set otherwise. -/
theorem master_only_flag_forwarded :
    (∀ env cn cmd mo reg idf usr prov c cmd' mo' u i,
      Event.remoteRunCommand c cmd' mo' u i ∈
        (run_command env cn cmd mo reg idf usr prov).2 →
      mo' = mo ∧ cmd' = cmd ∧
        targetNodes mo' c =
          (if mo then [c.master_host] else c.master_host :: c.slave_ips))
    ∧ (∀ env cn lp rp mo reg idf usr ay prov c lp' rp' mo' u i,
      Event.remoteCopyFile c lp' rp' mo' u i ∈
        (copy_file env cn lp rp mo reg idf usr ay prov).2 →
      mo' = mo ∧
        targetNodes mo' c =
          (if mo then [c.master_host] else c.master_host :: c.slave_ips)) := by
  constructor
  · intro env cn cmd mo reg idf usr prov c cmd' mo' u i h
    unfold run_command at h
    repeat' split at h
    all_goals simp_all [targetNodes]
  · intro env cn lp rp mo reg idf usr ay prov c lp' rp' mo' u i h
    unfold copy_file at h
    repeat' split at h
    all_goals simp only [apply_ite Prod.snd] at h
    all_goals try split at h
    all_goals simp_all [targetNodes]

/-- Witness for C7: a concrete `run_command` with the master-only flag set
forwards `true` and targets exactly the master. -/
theorem master_only_flag_forwarded_witness :
    true = true ∧ ["ls"] = ["ls"] ∧
      targetNodes true cluster0 =
        (if true then [cluster0.master_host]
         else cluster0.master_host :: cluster0.slave_ips) :=
  master_only_flag_forwarded.1 env0 "test-cluster" ["ls"] true "us-east-1"
    (some "k.pem") (some "ec2-user") "ec2" cluster0 ["ls"] true
    (some "ec2-user") (some "k.pem") (by decide)

/-- C1: for `run_command`, `start`, `stop` and `copy_file`, the lifecycle
guard is evaluated before the corresponding remote operation: in every
execution no remote event precedes the first guard evaluation, and a
remote event for a cluster can only occur when the corresponding guard
succeeded on that cluster — so when the guard raises, no remote operation
is ever invoked. -/
theorem lifecycle_guards_precede_remote_operations :
    (∀ env cn cmd mo reg idf usr prov,
      guardPrecedesRemote (run_command env cn cmd mo reg idf usr prov).2
      ∧ ∀ c cmd' mo' u i, Event.remoteRunCommand c cmd' mo' u i ∈
          (run_command env cn cmd mo reg idf usr prov).2 →
        env.run_command_check c = .ok ())
    ∧ (∀ env cn reg idf usr prov,
      guardPrecedesRemote (start env cn reg idf usr prov).2
      ∧ ∀ c u i, Event.remoteStart c u i ∈ (start env cn reg idf usr prov).2 →
        env.start_check c = .ok ())
    ∧ (∀ env cn reg ay prov,
      guardPrecedesRemote (stop env cn reg ay prov).2
      ∧ ∀ c, Event.remoteStop c ∈ (stop env cn reg ay prov).2 →
        env.stop_check c = .ok ())
    ∧ (∀ env cn lp rp mo reg idf usr ay prov,
      guardPrecedesRemote (copy_file env cn lp rp mo reg idf usr ay prov).2
      ∧ ∀ c lp' rp' mo' u i, Event.remoteCopyFile c lp' rp' mo' u i ∈
          (copy_file env cn lp rp mo reg idf usr ay prov).2 →
        env.copy_file_check c = .ok ()) := by
  refine ⟨?_, ?_, ?_, ?_⟩
  · intro env cn cmd mo reg idf usr prov
    constructor
    · unfold run_command guardPrecedesRemote
      repeat' split
      all_goals simp [Event.isGuardCheck, Event.isRemoteOp]
    · intro c cmd' mo' u i h
      unfold run_command at h
      repeat' split at h
      all_goals simp_all [eq_iff_true_of_subsingleton]
  · intro env cn reg idf usr prov
    constructor
    · unfold start guardPrecedesRemote
      repeat' split
      all_goals simp [Event.isGuardCheck, Event.isRemoteOp]
    · intro c u i h
      unfold start at h
      repeat' split at h
      all_goals simp_all [eq_iff_true_of_subsingleton]
  · intro env cn reg ay prov
    constructor
    · unfold stop guardPrecedesRemote
      repeat' split
      all_goals simp [Event.isGuardCheck, Event.isRemoteOp]
    · intro c h
      unfold stop at h
      repeat' split at h
      all_goals simp_all [eq_iff_true_of_subsingleton]
  · intro env cn lp rp mo reg idf usr ay prov
    constructor
    · unfold copy_file guardPrecedesRemote
      repeat' split
      all_goals simp only [apply_ite Prod.snd]
      all_goals try split
      all_goals simp [Event.isGuardCheck, Event.isRemoteOp]
    · intro c lp' rp' mo' u i h
      unfold copy_file at h
      repeat' split at h
      all_goals simp only [apply_ite Prod.snd] at h
      all_goals try split at h
      all_goals simp_all [eq_iff_true_of_subsingleton]

/-- Witness for C1: in the fixture environment, the `run_command` trace
satisfies the guard-before-remote property and the guard on the concrete
cluster of its remote event succeeded. -/
theorem lifecycle_guards_precede_remote_operations_witness :
    guardPrecedesRemote (run_command env0 "test-cluster" ["ls"] false "us-east-1"
      (some "k.pem") (some "ec2-user") "ec2").2
    ∧ env0.run_command_check cluster0 = .ok () :=
  ⟨(lifecycle_guards_precede_remote_operations.1 env0 "test-cluster" ["ls"] false
      "us-east-1" (some "k.pem") (some "ec2-user") "ec2").1,
   (lifecycle_guards_precede_remote_operations.1 env0 "test-cluster" ["ls"] false
      "us-east-1" (some "k.pem") (some "ec2-user") "ec2").2 cluster0 ["ls"] false
      (some "ec2-user") (some "k.pem") (by decide)⟩

/-- Membership in the name-sorted insertion of a cluster. -/
theorem mem_insertByName {x c : Cluster} {l : List Cluster} :
    x ∈ insertByName c l ↔ x = c ∨ x ∈ l := by
  induction l with
  | nil => simp [insertByName]
  | cons d rest ih =>
    unfold insertByName
    split
    · simp
    · simp [ih]
      tauto

/-- Sorting clusters by name neither adds nor removes clusters. -/
theorem mem_sortedByName {x : Cluster} {l : List Cluster} :
    x ∈ sortedByName l ↔ x ∈ l := by
  suffices h : ∀ acc, x ∈ l.foldl (fun acc c => insertByName c acc) acc
      ↔ x ∈ acc ∨ x ∈ l by
    simpa [sortedByName] using h []
  induction l with
  | nil => simp
  | cons c rest ih =>
    intro acc
    simp only [List.foldl_cons, ih, mem_insertByName, List.mem_cons]
    tauto

/-- C6: every lifecycle operation operates only on cluster objects
constructed within that invocation from its provider query: any event of
`destroy`, `login`, `start`, `stop`, `run_command` or `copy_file` that
carries a cluster carries exactly the cluster returned by
`ec2.get_cluster` for this invocation's name and region, and any
cluster-carrying event of `describe` carries a member of the list returned
by `ec2.get_clusters`.  The embeddings consult no other source of cluster
state, so two invocations whose provider queries return equal results
operate on equal cluster inputs. -/
theorem clusters_constructed_fresh_per_invocation :
    (∀ env cn ay reg prov ev c, ev ∈ (destroy env cn ay reg prov).2 →
      ev.clusterOf = some c → env.getCluster cn reg = .ok c)
    ∧ (∀ env name mho reg prov ev c clusters, ev ∈ (describe env name mho reg prov).2 →
      ev.clusterOf = some c →
      env.getClusters (if (optStr name).truthy then [name.getD ""] else [])
        (reg.getD "None") = .ok clusters →
      c ∈ clusters)
    ∧ (∀ env cn reg idf usr prov ev c, ev ∈ (login env cn reg idf usr prov).2 →
      ev.clusterOf = some c → env.getCluster cn reg = .ok c)
    ∧ (∀ env cn reg idf usr prov ev c, ev ∈ (start env cn reg idf usr prov).2 →
      ev.clusterOf = some c → env.getCluster cn reg = .ok c)
    ∧ (∀ env cn reg ay prov ev c, ev ∈ (stop env cn reg ay prov).2 →
      ev.clusterOf = some c → env.getCluster cn reg = .ok c)
    ∧ (∀ env cn cmd mo reg idf usr prov ev c,
      ev ∈ (run_command env cn cmd mo reg idf usr prov).2 →
      ev.clusterOf = some c → env.getCluster cn reg = .ok c)
    ∧ (∀ env cn lp rp mo reg idf usr ay prov ev c,
      ev ∈ (copy_file env cn lp rp mo reg idf usr ay prov).2 →
      ev.clusterOf = some c → env.getCluster cn reg = .ok c) := by
  refine ⟨?_, ?_, ?_, ?_, ?_, ?_, ?_⟩
  · intro env cn ay reg prov ev c h hc
    unfold destroy at h
    repeat' split at h
    all_goals try simp only [List.mem_append, List.mem_cons, List.not_mem_nil,
      List.mem_singleton, List.mem_map, or_false, false_or] at h
    all_goals try casesm* _ ∨ _, _ ∧ _, ∃ _, _
    all_goals simp_all [Event.clusterOf]
  · intro env name mho reg prov ev c clusters h hc hq
    unfold describe at h
    cases clusters with
    | nil =>
      repeat' split at h
      all_goals try simp only [List.mem_append, List.mem_cons, List.not_mem_nil,
        List.mem_singleton, List.mem_map, or_false, false_or] at h
      all_goals try casesm* _ ∨ _, _ ∧ _, ∃ _, _
      all_goals try subst ev
      all_goals try simp_all [Event.clusterOf, mem_sortedByName]
      all_goals try casesm* _ ∨ _, _ ∧ _, ∃ _, _
      all_goals try subst ev
      all_goals try simp_all [Event.clusterOf, mem_sortedByName]
    | cons chead ctail =>
      repeat' split at h
      all_goals try simp only [List.mem_append, List.mem_cons, List.not_mem_nil,
        List.mem_singleton, List.mem_map, or_false, false_or] at h
      all_goals try casesm* _ ∨ _, _ ∧ _, ∃ _, _
      all_goals try subst ev
      all_goals try simp_all [Event.clusterOf, mem_sortedByName]
      all_goals try casesm* _ ∨ _, _ ∧ _, ∃ _, _
      all_goals try subst ev
      all_goals try simp_all [Event.clusterOf, mem_sortedByName]
  · intro env cn reg idf usr prov ev c h hc
    unfold login at h
    repeat' split at h
    all_goals try simp only [List.mem_append, List.mem_cons, List.not_mem_nil,
      List.mem_singleton, List.mem_map, or_false, false_or] at h
    all_goals try casesm* _ ∨ _, _ ∧ _, ∃ _, _
    all_goals simp_all [Event.clusterOf]
  · intro env cn reg idf usr prov ev c h hc
    unfold start at h
    repeat' split at h
    all_goals try simp only [List.mem_append, List.mem_cons, List.not_mem_nil,
      List.mem_singleton, List.mem_map, or_false, false_or] at h
    all_goals try casesm* _ ∨ _, _ ∧ _, ∃ _, _
    all_goals simp_all [Event.clusterOf]
  · intro env cn reg ay prov ev c h hc
    unfold stop at h
    repeat' split at h
    all_goals try simp only [List.mem_append, List.mem_cons, List.not_mem_nil,
      List.mem_singleton, List.mem_map, or_false, false_or] at h
    all_goals try casesm* _ ∨ _, _ ∧ _, ∃ _, _
    all_goals simp_all [Event.clusterOf]
  · intro env cn cmd mo reg idf usr prov ev c h hc
    unfold run_command at h
    repeat' split at h
    all_goals try simp only [List.mem_append, List.mem_cons, List.not_mem_nil,
      List.mem_singleton, List.mem_map, or_false, false_or] at h
    all_goals try casesm* _ ∨ _, _ ∧ _, ∃ _, _
    all_goals simp_all [Event.clusterOf]
  · intro env cn lp rp mo reg idf usr ay prov ev c h hc
    unfold copy_file at h
    repeat' split at h
    all_goals try simp only [apply_ite Prod.snd] at h
    all_goals repeat' split at h
    all_goals try simp only [List.mem_append, List.mem_cons, List.not_mem_nil,
      List.mem_singleton, List.mem_map, or_false, false_or] at h
    all_goals try casesm* _ ∨ _, _ ∧ _, ∃ _, _
    all_goals simp_all [Event.clusterOf]

/-- Witness for C6: the cluster in the remote event of a concrete `stop`
invocation is exactly the one the provider query returned. -/
theorem clusters_constructed_fresh_per_invocation_witness :
    env0.getCluster "test-cluster" "us-east-1" = .ok cluster0 :=
  clusters_constructed_fresh_per_invocation.2.2.2.2.1 env0 "test-cluster" "us-east-1"
    true "ec2" (Event.remoteStop cluster0) cluster0 (by decide) rfl

/-- Evaluation of the Spark-source mutual-exclusion check on the `launch`
scope: it raises exactly when both `spark_version` and `spark_git_commit`
are truthy, naming those two options with their values. -/
theorem launch_mutex_eval (a : LaunchArgs) (prov : String) :
    mutually_exclusive ["--spark-version", "--spark-git-commit"] (launch_scope a prov)
      = if (optStr a.spark_version).truthy && (optStr a.spark_git_commit).truthy then
          Except.error (Err.usageError (mutexMsg "spark_version" "spark_git_commit"
            (optStr a.spark_version) (optStr a.spark_git_commit)))
        else Except.ok () := by
  have h1 : option_name_to_variable_name "--spark-version" = "spark_version" := by decide
  have h2 : option_name_to_variable_name "--spark-git-commit" = "spark_git_commit" := by decide
  unfold mutually_exclusive
  simp only [List.map_cons, List.map_nil, h1, h2]
  cases hsv : (optStr a.spark_version).truthy <;>
    cases hsg : (optStr a.spark_git_commit).truthy <;>
      simp [launch_scope, List.filter, List.contains, Scope.find?, List.find?, hsv, hsg]

/-- With `--hdfs-version` unset, the first requirement check of `launch`
raises — this code requires an HDFS version unconditionally, whether or
not `--install-hdfs` was requested. -/
theorem launchValidation_hdfs_missing (a : LaunchArgs) (prov : String)
    (h : a.hdfs_version = Option.none) :
    launchValidation a prov = .error (.usageError
      "Error: Missing option \"--hdfs-version\" is required by \"--install-hdfs\".") := by
  obtain ⟨cn, ns, ih, hv, isp, sv, sgc, repo, ay, kn, idf, it, reg, az, ami, usr,
    sp, vpc, sub, ipn, pg, ten, ebs, isb⟩ := a
  change hv = Option.none at h
  subst h
  rfl

/-- With neither Spark source set, `launch` validation raises a
`UsageError` (the HDFS one if `--hdfs-version` is also unset, otherwise
the requires-any error for `--install-spark`). -/
theorem launchValidation_spark_source_missing (a : LaunchArgs) (prov : String)
    (h1 : a.spark_version = Option.none) (h2 : a.spark_git_commit = Option.none) :
    ∃ m, launchValidation a prov = .error (.usageError m) := by
  obtain ⟨cn, ns, ih, hv, isp, sv, sgc, repo, ay, kn, idf, it, reg, az, ami, usr,
    sp, vpc, sub, ipn, pg, ten, ebs, isb⟩ := a
  change sv = Option.none at h1
  change sgc = Option.none at h2
  subst h1; subst h2
  cases hv with
  | none => exact ⟨_, rfl⟩
  | some v => exact ⟨_, rfl⟩

/-- With an HDFS version present and both Spark sources set to non-empty
strings, `launch` validation fails exactly on the mutual-exclusion
check. -/
theorem launchValidation_both_spark (a : LaunchArgs) (prov : String) (hv s g : String)
    (h1 : a.hdfs_version = some hv) (h2 : a.spark_version = some s)
    (h3 : a.spark_git_commit = some g) (hs : s ≠ "") (hg : g ≠ "") :
    launchValidation a prov = .error (.usageError (mutexMsg "spark_version"
      "spark_git_commit" (Value.str s) (Value.str g))) := by
  have hm := launch_mutex_eval a prov
  obtain ⟨cn, ns, ih, hv0, isp, sv, sgc, repo, ay, kn, idf, it, reg, az, ami, usr,
    sp, vpc, sub, ipn, pg, ten, ebs, isb⟩ := a
  change hv0 = some hv at h1
  change sv = some s at h2
  change sgc = some g at h3
  subst h1; subst h2; subst h3
  simp only [optStr, Value.truthy, hs, hg, ne_eq, not_false_eq_true, decide_True,
    Bool.and_self, if_true, reduceIte] at hm
  simp only [launchValidation]
  rw [hm]
  rfl

/-- C3 counterexample: at an invocation supplying both (non-empty) Spark
sources with `--hdfs-version` unset, `launch` raises the HDFS-requirement
`UsageError`, whose message does not name the two conflicting Spark
options — so the claim as stated fails at this input. -/
theorem launch_spark_sources_mutex_counterexample :
    (optStr argsBothSparkNoHdfs.spark_version).truthy = true
    ∧ (optStr argsBothSparkNoHdfs.spark_git_commit).truthy = true
    ∧ (launch env0 argsBothSparkNoHdfs "ec2").1 = .error (.usageError
        "Error: Missing option \"--hdfs-version\" is required by \"--install-hdfs\".")
    ∧ subOccursIn
        "Error: Missing option \"--hdfs-version\" is required by \"--install-hdfs\".".data
        "--spark-version".data = false
    ∧ subOccursIn
        "Error: Missing option \"--hdfs-version\" is required by \"--install-hdfs\".".data
        "--spark-git-commit".data = false := by
  refine ⟨by decide, by decide, ?_, by decide, by decide⟩
  unfold launch
  rw [launchValidation_hdfs_missing argsBothSparkNoHdfs "ec2" rfl]

/-- C3 (amended): provided the preceding HDFS requirement check passes
(an HDFS version is supplied — this code requires one unconditionally),
every `launch` invocation supplying both a non-empty `--spark-version`
and a non-empty `--spark-git-commit` raises the `UsageError` naming the
two conflicting options, before any service object is constructed or the
provider called (the event trace is empty); the rendered message contains
both option names; and the mutual-exclusion check alone passes whenever
exactly one of the two options is supplied. -/
theorem launch_spark_sources_mutually_exclusive :
    (∀ (env : Env) (a : LaunchArgs) (prov : String) (hv : String),
      a.hdfs_version = some hv →
      (optStr a.spark_version).truthy = true →
      (optStr a.spark_git_commit).truthy = true →
      launch env a prov =
        (.error (.usageError (mutexMsg "spark_version" "spark_git_commit"
          (optStr a.spark_version) (optStr a.spark_git_commit))), []))
    ∧ (∀ v1 v2 : Value, ∃ pre mid post : String,
        mutexMsg "spark_version" "spark_git_commit" v1 v2
          = pre ++ "--spark-version" ++ mid ++ "--spark-git-commit" ++ post)
    ∧ (∀ (a : LaunchArgs) (prov : String),
        ((optStr a.spark_version).truthy = true ∧ (optStr a.spark_git_commit).truthy = false)
        ∨ ((optStr a.spark_version).truthy = false ∧ (optStr a.spark_git_commit).truthy = true) →
        mutually_exclusive ["--spark-version", "--spark-git-commit"] (launch_scope a prov)
          = .ok ()) := by
  refine ⟨?_, ?_, ?_⟩
  · intro env a prov hv h1 hsv hsg
    obtain ⟨s, h2, hs⟩ : ∃ s, a.spark_version = some s ∧ s ≠ "" := by
      cases h : a.spark_version with
      | none => rw [h] at hsv; simp [optStr, Value.truthy] at hsv
      | some s =>
        refine ⟨s, rfl, ?_⟩
        rw [h] at hsv
        simpa [optStr, Value.truthy] using hsv
    obtain ⟨g, h3, hg⟩ : ∃ g, a.spark_git_commit = some g ∧ g ≠ "" := by
      cases h : a.spark_git_commit with
      | none => rw [h] at hsg; simp [optStr, Value.truthy] at hsg
      | some g =>
        refine ⟨g, rfl, ?_⟩
        rw [h] at hsg
        simpa [optStr, Value.truthy] using hsg
    have hval := launchValidation_both_spark a prov hv s g h1 h2 h3 hs hg
    unfold launch
    rw [hval]
    simp [h2, h3, optStr]
  · intro v1 v2
    refine ⟨"Error: \"", "\" and \"",
      "\" are mutually exclusive.\n  " ++ "--spark-version" ++ ": " ++ v1.pyStr ++
        "\n  " ++ "--spark-git-commit" ++ ": " ++ v2.pyStr, ?_⟩
    have h1 : variable_name_to_option_name "spark_version" = "--spark-version" := by decide
    have h2 : variable_name_to_option_name "spark_git_commit" = "--spark-git-commit" := by decide
    apply str_ext
    simp [mutexMsg, h1, h2, String.data_append, List.append_assoc]
  · intro a prov h
    rw [launch_mutex_eval]
    rcases h with ⟨hx, hy⟩ | ⟨hx, hy⟩ <;> simp [hx, hy]

/-- Witness for amended C3: the concrete invocation with both Spark
sources and an HDFS version raises the mutual-exclusion `UsageError` with
an empty trace, and supplying only `--spark-version` passes the
mutual-exclusion check. -/
theorem launch_spark_sources_mutually_exclusive_witness :
    launch env0 argsBothSpark "ec2" =
      (.error (.usageError (mutexMsg "spark_version" "spark_git_commit"
        (optStr argsBothSpark.spark_version) (optStr argsBothSpark.spark_git_commit))), [])
    ∧ mutually_exclusive ["--spark-version", "--spark-git-commit"]
        (launch_scope argsOneSpark "ec2") = .ok () :=
  ⟨launch_spark_sources_mutually_exclusive.1 env0 argsBothSpark "ec2" "2.7.6" rfl
      (by decide) (by decide),
   launch_spark_sources_mutually_exclusive.2.2 argsOneSpark "ec2"
      (Or.inl ⟨by decide, by decide⟩)⟩

/-- When validation succeeds and service construction yields `svcs`,
`launch` on the EC2 provider succeeds and hands exactly `svcs` to the
provider launch. -/
theorem launch_of_validation_ok (env : Env) (a : LaunchArgs) (svcs : List Service)
    (hval : launchValidation a "ec2" = .ok ())
    (hbs : (buildServices a).1 = .ok svcs) :
    (launch env a "ec2").1 = .ok ()
    ∧ Event.providerLaunch a.cluster_name a.num_slaves svcs ∈ (launch env a "ec2").2 := by
  unfold launch
  rw [hval]
  cases hb : buildServices a with
  | mk f tr =>
    rw [hb] at hbs
    simp only at hbs
    subst hbs
    simp

/-- C5 counterexample: `argsEmptySparkVersion` passes the whole validation
phase (`--spark-version` is supplied, albeit empty, so the requires-any
check sees a non-`None` value) and has `--install-spark` set, yet `launch`
produces no service list at all: `if spark_version:` is false on the empty
string, leaving the local `spark` unassigned, and `services += [spark]`
raises Python's unbound-local error.  The claim's service-list clause
fails at this input. -/
theorem launch_service_validation_counterexample :
    launchValidation argsEmptySparkVersion "ec2" = .ok ()
    ∧ argsEmptySparkVersion.install_spark = true
    ∧ launch env0 argsEmptySparkVersion "ec2" = (.error (.nameError "spark"), []) :=
  ⟨rfl, rfl, rfl⟩

/-- C5 (amended): requesting `--install-hdfs` without `--hdfs-version`
raises a `UsageError`, requesting `--install-spark` with neither
`--spark-version` nor `--spark-git-commit` raises a `UsageError`, and —
provided each supplied Spark source option is either unset or non-empty —
when validation passes the constructed service list contains HDFS
(parametrized by the HDFS version) iff `install_hdfs` is set and a Spark
service (parametrized by the release version, or by the git repository
and commit when no version is given) iff `install_spark` is set; that
exact list is handed to the provider launch. -/
theorem launch_service_validation :
    (∀ (env : Env) (a : LaunchArgs) (prov : String),
      a.install_hdfs = true → a.hdfs_version = Option.none →
      launch env a prov = (.error (.usageError
        "Error: Missing option \"--hdfs-version\" is required by \"--install-hdfs\"."), []))
    ∧ (∀ (env : Env) (a : LaunchArgs) (prov : String),
      a.install_spark = true → a.spark_version = Option.none →
      a.spark_git_commit = Option.none →
      ∃ m, launch env a prov = (.error (.usageError m), []))
    ∧ (∀ (env : Env) (a : LaunchArgs) (prov : String),
      launchValidation a prov = .ok () →
      (a.spark_version = Option.none ∨ (optStr a.spark_version).truthy = true) →
      (a.spark_git_commit = Option.none ∨ (optStr a.spark_git_commit).truthy = true) →
      ∃ svcs, (buildServices a).1 = .ok svcs
        ∧ ((∃ v, Service.hdfs v ∈ svcs) ↔ a.install_hdfs = true)
        ∧ (a.install_hdfs = true → Service.hdfs a.hdfs_version ∈ svcs)
        ∧ ((∃ s, s ∈ svcs ∧ ((∃ v, s = Service.sparkVersion v)
            ∨ (∃ gc repo, s = Service.sparkGit gc repo))) ↔ a.install_spark = true)
        ∧ (a.install_spark = true → ∀ v, a.spark_version = some v →
            Service.sparkVersion v ∈ svcs)
        ∧ (a.install_spark = true → a.spark_version = Option.none →
            ∀ gc, a.spark_git_commit = some gc →
            Service.sparkGit gc a.spark_git_repository ∈ svcs)
        ∧ (prov = "ec2" →
            (launch env a prov).1 = .ok ()
            ∧ Event.providerLaunch a.cluster_name a.num_slaves svcs
                ∈ (launch env a prov).2)) := by
  refine ⟨?_, ?_, ?_⟩
  · intro env a prov hih hhv
    unfold launch
    rw [launchValidation_hdfs_missing a prov hhv]
  · intro env a prov hisp hsv hsg
    obtain ⟨m, hm⟩ := launchValidation_spark_source_missing a prov hsv hsg
    refine ⟨m, ?_⟩
    unfold launch
    rw [hm]
  · intro env a prov hval hsvopt hsgopt
    obtain ⟨hv, hhv⟩ : ∃ hv, a.hdfs_version = some hv := by
      cases h : a.hdfs_version with
      | none =>
        rw [launchValidation_hdfs_missing a prov h] at hval
        exact absurd hval (by simp)
      | some v => exact ⟨v, rfl⟩
    have hnotboth : ¬ (a.spark_version = Option.none ∧ a.spark_git_commit = Option.none) := by
      rintro ⟨h1, h2⟩
      obtain ⟨m, hm⟩ := launchValidation_spark_source_missing a prov h1 h2
      rw [hm] at hval
      exact absurd hval (by simp)
    cases hisp : a.install_spark with
    | false =>
      cases hih : a.install_hdfs with
      | false =>
        have hbs : (buildServices a).1 = .ok [] := by
          simp [buildServices, hih, hisp]
        refine ⟨_, hbs, ?_, ?_, ?_, ?_, ?_, fun hprov => by
          subst hprov; exact launch_of_validation_ok env a _ hval hbs⟩
        all_goals simp [hih, hisp]
      | true =>
        have hbs : (buildServices a).1 = .ok [Service.hdfs a.hdfs_version] := by
          simp [buildServices, hih, hisp]
        refine ⟨_, hbs, ?_, ?_, ?_, ?_, ?_, fun hprov => by
          subst hprov; exact launch_of_validation_ok env a _ hval hbs⟩
        all_goals simp [hih, hisp]
    | true =>
      rcases hsvopt with hsveq | hsvt
      · rcases hsgopt with hsgeq | hsgt
        · exact absurd ⟨hsveq, hsgeq⟩ hnotboth
        · obtain ⟨g, hgeq, hg⟩ : ∃ g, a.spark_git_commit = some g ∧ g ≠ "" := by
            cases h : a.spark_git_commit with
            | none => rw [h] at hsgt; simp [optStr, Value.truthy] at hsgt
            | some g =>
              refine ⟨g, rfl, ?_⟩
              rw [h] at hsgt
              simpa [optStr, Value.truthy] using hsgt
          cases hih : a.install_hdfs with
          | false =>
            have hbs : (buildServices a).1
                = .ok [Service.sparkGit g a.spark_git_repository] := by
              simp [buildServices, hih, hisp, hsveq, hgeq, optStr, Value.truthy, hg]
            refine ⟨_, hbs, ?_, ?_, ?_, ?_, ?_, fun hprov => by
              subst hprov; exact launch_of_validation_ok env a _ hval hbs⟩
            all_goals simp [hih, hisp, hsveq, hgeq]
          | true =>
            have hbs : (buildServices a).1
                = .ok [Service.hdfs a.hdfs_version,
                       Service.sparkGit g a.spark_git_repository] := by
              simp [buildServices, hih, hisp, hsveq, hgeq, optStr, Value.truthy, hg]
            refine ⟨_, hbs, ?_, ?_, ?_, ?_, ?_, fun hprov => by
              subst hprov; exact launch_of_validation_ok env a _ hval hbs⟩
            all_goals simp [hih, hisp, hsveq, hgeq]
      · obtain ⟨s, hseq, hs⟩ : ∃ s, a.spark_version = some s ∧ s ≠ "" := by
          cases h : a.spark_version with
          | none => rw [h] at hsvt; simp [optStr, Value.truthy] at hsvt
          | some s =>
            refine ⟨s, rfl, ?_⟩
            rw [h] at hsvt
            simpa [optStr, Value.truthy] using hsvt
        cases hih : a.install_hdfs with
        | false =>
          have hbs : (buildServices a).1 = .ok [Service.sparkVersion s] := by
            simp [buildServices, hih, hisp, hseq, optStr, Value.truthy, hs]
          refine ⟨_, hbs, ?_, ?_, ?_, ?_, ?_, fun hprov => by
            subst hprov; exact launch_of_validation_ok env a _ hval hbs⟩
          all_goals simp [hih, hisp, hseq]
        | true =>
          have hbs : (buildServices a).1
              = .ok [Service.hdfs a.hdfs_version, Service.sparkVersion s] := by
            simp [buildServices, hih, hisp, hseq, optStr, Value.truthy, hs]
          refine ⟨_, hbs, ?_, ?_, ?_, ?_, ?_, fun hprov => by
            subst hprov; exact launch_of_validation_ok env a _ hval hbs⟩
          all_goals simp [hih, hisp, hseq]

/-- Witness for amended C5: a fully valid launch requesting both services
with a non-empty Spark version yields exactly the HDFS-then-Spark service
list, and that list is handed to the provider. -/
theorem launch_service_validation_witness :
    (buildServices argsFullLaunch).1
      = .ok [Service.hdfs (some "2.7.6"), Service.sparkVersion "2.0.0"]
    ∧ (launch env0 argsFullLaunch "ec2").1 = .ok ()
    ∧ Event.providerLaunch "c" 1 [Service.hdfs (some "2.7.6"), Service.sparkVersion "2.0.0"]
        ∈ (launch env0 argsFullLaunch "ec2").2 := by
  obtain ⟨svcs, h1, h2, h3, h4, h5, h6, h7⟩ :=
    launch_service_validation.2.2 env0 argsFullLaunch "ec2" rfl
      (Or.inr (by decide)) (Or.inl rfl)
  have h1' : (Except.ok [Service.hdfs (some "2.7.6"), Service.sparkVersion "2.0.0"]
      : Except Err (List Service)) = .ok svcs := h1
  injection h1' with hsv
  subst hsv
  exact ⟨h1, (h7 rfl).1, (h7 rfl).2⟩

/-- C10: a `--config` path that does not exist raises `FileNotFoundError`
exactly when it differs from the default configuration file location;
when the default location is missing, `cli` proceeds with no default map;
and when the file exists, its parsed contents are loaded — via
`normalize_keys` and `config_to_click` — into the command default map. -/
theorem cli_config_loading :
    (∀ (env : CliEnv) (config provider : String), env.isFile config = false →
      ((cli env config provider = .error (.fileNotFoundError config))
        ↔ config ≠ get_config_file env))
    ∧ (∀ (env : CliEnv) (provider : String),
      env.isFile (get_config_file env) = false →
      cli env (get_config_file env) provider = .ok Option.none)
    ∧ (∀ (env : CliEnv) (config provider : String) (raw : Yaml)
        (m : List (String × Dict)),
      env.isFile config = true → env.readYaml config = .ok raw →
      config_to_click (normalize_keys raw) = .ok m →
      cli env config provider = .ok (some m)) := by
  refine ⟨?_, ?_, ?_⟩
  · intro env config provider hfile
    unfold cli
    rw [hfile]
    by_cases h : config = get_config_file env <;> simp [h]
  · intro env provider hfile
    unfold cli
    rw [hfile]
    simp
  · intro env config provider raw m hfile hread hmap
    unfold cli
    rw [hfile, hread]
    simp [hmap]

/-- Witness for C10: a concrete existing configuration is loaded into the
command default map, and a missing default location yields no default
map. -/
theorem cli_config_loading_witness :
    cli cliEnvLoaded "/etc/flintrock.yaml" "ec2"
      = .ok (some
          [("launch", [("num_slaves", Yaml.int 2), ("ec2_key_name", Yaml.str "k")]),
           ("describe", [("ec2_key_name", Yaml.str "k")]),
           ("destroy", [("ec2_key_name", Yaml.str "k")]),
           ("login", [("ec2_key_name", Yaml.str "k")]),
           ("start", [("ec2_key_name", Yaml.str "k")]),
           ("stop", [("ec2_key_name", Yaml.str "k")]),
           ("run-command", [("ec2_key_name", Yaml.str "k")]),
           ("copy-file", [("ec2_key_name", Yaml.str "k")])])
    ∧ cli cliEnvMissingDefault (get_config_file cliEnvMissingDefault) "ec2"
        = .ok Option.none :=
  ⟨cli_config_loading.2.2 cliEnvLoaded "/etc/flintrock.yaml" "ec2" yaml0 _ rfl rfl rfl,
   cli_config_loading.2.1 cliEnvMissingDefault "ec2" rfl⟩


end Flintrock
